import Mathlib

/-!
Verification development for the krawl external-service lifecycle controller
(`krawl/parser/paper_parser.py`): the `GrobidManager` start/stop state machine
and the `PaperParser.run` batch loop, embedded shallowly.

The docker daemon and the GROBID service are modelled as an explicit `World`;
per-call nondeterminism (health-probe answers, client-initialization success,
submission outcomes) is resolved by environment records passed to the embedded
functions.  Python exceptions are modelled with `Except`; an `except` handler
is a `match` on the error value.  Traces record the externally visible
commands (docker stop / rm / run, health probes, sleeps, log fetches, stop
calls) that the claims talk about.
-/

namespace Krawl

/-- Outcome of a `docker stop` invocation, resolved by the environment:
it can succeed (exit code 0), fail (nonzero exit code), or hit the 30s
`subprocess` timeout (raising `TimeoutExpired`). -/
inductive StopOutcome where
  | ok
  | fails
  | timesOut
deriving DecidableEq, Repr

/-- Python exceptions that the docker-facing code can raise and that
`GrobidManager.stop` catches (`FileNotFoundError`, `subprocess.TimeoutExpired`,
and a catch-all `Exception`). -/
inductive PyExc where
  | fileNotFound
  | timeoutExpired
  | otherExc
deriving DecidableEq, Repr

/-- The state of the docker daemon and the named GROBID container, as seen by
the `docker inspect` / `stop` / `rm` / `run` commands the code issues.
`autoRemove` records whether the container was created with `--rm`
(a stopped auto-remove container disappears). -/
structure World where
  dockerFound : Bool
  containerExists : Bool
  containerRunning : Bool
  autoRemove : Bool
deriving DecidableEq, Repr

/-- The mutable fields of a `GrobidManager` instance:
`self.client` (modelled by whether a client is bound) and
`self._container_started_by_this_instance`. -/
structure Manager where
  hasClient : Bool
  startedByThisInstance : Bool
deriving DecidableEq, Repr

/-- A fresh `GrobidManager.__init__` state: no client, flag false. -/
def Manager.fresh : Manager := ⟨false, false⟩

/-- Commands issued to docker during one `stop` call. -/
structure StopTrace where
  dockerStopCmds : Nat
  dockerRmCmds : Nat
deriving DecidableEq, Repr

/-- Effect of a successful `docker stop` on the world: a running container
stops, and disappears when it was created with `--rm`. A stop of an already
stopped container changes nothing. -/
def applyStop (w : World) : World :=
  if w.containerRunning then
    { w with containerRunning := false,
             containerExists := w.containerExists && !w.autoRemove }
  else w

/-- Effect of `docker rm -f` on the world: the container is gone. -/
def applyRm (w : World) : World :=
  { w with containerExists := false, containerRunning := false }

/-- The `try` block of `GrobidManager.stop` (paper_parser.py lines 194-218):
inspect the container (early return when absent), issue `docker stop`
(which may fail or time out), and, when `_container_started_by_this_instance`
is set and the container still exists, force `docker rm -f`.
Returns the raised exception or the updated world, together with the
docker commands issued before the exception (if any). -/
def stopBody (m : Manager) (w : World) (o : StopOutcome) :
    Except PyExc World × StopTrace :=
  if !w.dockerFound then
    (.error .fileNotFound, ⟨0, 0⟩)
  else if !w.containerExists then
    (.ok w, ⟨0, 0⟩)
  else
    match o with
    | .timesOut => (.error .timeoutExpired, ⟨1, 0⟩)
    | .fails =>
        -- nonzero exit code: warning printed, final inspect, no world change
        if m.startedByThisInstance && w.containerExists then
          (.ok (applyRm w), ⟨1, 1⟩)
        else
          (.ok w, ⟨1, 0⟩)
    | .ok =>
        let w1 := applyStop w
        if m.startedByThisInstance && w1.containerExists then
          (.ok (applyRm w1), ⟨1, 1⟩)
        else
          (.ok w1, ⟨1, 0⟩)

namespace GrobidManager

/-- `GrobidManager.stop` (paper_parser.py lines 189-227): drop the client,
run `stopBody`, catch every exception it can raise, and in the `finally`
block clear `_container_started_by_this_instance`. -/
def stop (m : Manager) (w : World) (o : StopOutcome) :
    Manager × World × StopTrace :=
  match stopBody m w o with
  | (.ok w', tr) => (⟨false, false⟩, w', tr)
  | (.error _, tr) => (⟨false, false⟩, w, tr)

/-- `GrobidManager.stop` with its exception structure exposed: the body may
raise, and each `except` clause (`FileNotFoundError`, `TimeoutExpired`,
`Exception`) converts the exception into a normal return. -/
def stopE (m : Manager) (w : World) (o : StopOutcome) :
    Except PyExc (Manager × World × StopTrace) :=
  match stopBody m w o with
  | (.ok w', tr) => .ok (⟨false, false⟩, w', tr)
  | (.error e, tr) =>
      match e with
      | .fileNotFound => .ok (⟨false, false⟩, w, tr)
      | .timeoutExpired => .ok (⟨false, false⟩, w, tr)
      | .otherExc => .ok (⟨false, false⟩, w, tr)

end GrobidManager

/-- Environment resolving the nondeterminism of one `GrobidManager.start`
call: the answer of the GROBID `/api/isalive` probe at each probe index, the
answer of the extra liveness double-check, whether `GrobidClient(config_path)`
construction succeeds, whether `docker run` succeeds, whether the pre-launch
`docker rm -f` of a stale container succeeds, and how `docker stop` behaves
when `stop` is called from inside `start`. -/
structure StartEnv where
  aliveAt : Nat → Bool
  doubleAlive : Bool
  clientInitOk : Bool
  dockerRunOk : Bool
  rmExistingOk : Bool
  stopOutcome : StopOutcome

/-- `GrobidManager.is_container_running_and_healthy` at probe index `i`:
`docker inspect -f State.Running` must report a running container (any
docker failure, docker missing included, is swallowed into `false`),
and then the `/api/isalive` probe must answer true. -/
def probeHealthy (w : World) (e : StartEnv) (i : Nat) : Bool :=
  w.dockerFound && w.containerExists && w.containerRunning && e.aliveAt i

/-- The `RuntimeError`s that `GrobidManager.start` can raise. -/
inductive StartErr where
  | clientInitFailedHealthy  -- client init failed though the service probed healthy (line 107)
  | dockerNotFound           -- docker binary missing (lines 120/144)
  | dockerRunFailed          -- `docker run` returned nonzero (line 152)
  | becameUnresponsive       -- double-check failed after a healthy poll (line 168, rewrapped at 178)
  | clientInitFailed         -- client init failed after startup (line 178)
  | notHealthyInTime         -- health budget exhausted (line 187)
deriving DecidableEq, Repr

/-- Externally visible activity of one `GrobidManager.start` call. -/
structure StartTrace where
  probes : Nat        -- `is_container_running_and_healthy` calls
  sleepSecs : Nat     -- total `time.sleep` seconds
  fetchLogs : Nat     -- `fetch_container_logs` calls
  stopCalls : Nat     -- `self.stop()` calls
  dockerRuns : Nat    -- `docker run` commands issued
  dockerRms : Nat     -- `docker rm -f` commands issued (pre-clean and inside stop)
deriving DecidableEq, Repr

namespace GrobidManager

/-- The health-polling loop of `GrobidManager.start` (lines 157-187):
`fuel` probe attempts remain and the next probe has index `idx`.  A failed
attempt sleeps 5s unless it was the last one; on budget exhaustion the code
fetches the container logs, calls `stop` once and raises.  On a healthy
probe the code re-checks liveness once (raising — through the generic
handler, which fetches logs and stops again — when the re-check fails),
then binds the client (fetching logs, stopping and raising when that
fails). -/
def startPoll (m : Manager) (w : World) (e : StartEnv) :
    Nat → Nat → Except StartErr Manager × World × StartTrace
  | 0, _ =>
      let r := stop m w e.stopOutcome
      (.error .notHealthyInTime, r.2.1,
        ⟨0, 0, 1, 1, 0, r.2.2.dockerRmCmds⟩)
  | Nat.succ fuel, idx =>
      if probeHealthy w e idx then
        if !e.doubleAlive then
          -- raise inside the inner try: fetch logs + stop, then the generic
          -- `except` handler fetches logs and stops a second time
          let r1 := stop m w e.stopOutcome
          let r2 := stop r1.1 r1.2.1 e.stopOutcome
          (.error .becameUnresponsive, r2.2.1,
            ⟨1, 0, 2, 2, 0, r1.2.2.dockerRmCmds + r2.2.2.dockerRmCmds⟩)
        else if e.clientInitOk then
          (.ok { m with hasClient := true }, w, ⟨1, 0, 0, 0, 0, 0⟩)
        else
          let r := stop m w e.stopOutcome
          (.error .clientInitFailed, r.2.1, ⟨1, 0, 1, 1, 0, r.2.2.dockerRmCmds⟩)
      else
        if fuel = 0 then
          -- last attempt failed: no sleep, fall through to exhaustion
          let r := stop m w e.stopOutcome
          (.error .notHealthyInTime, r.2.1,
            ⟨1, 0, 1, 1, 0, r.2.2.dockerRmCmds⟩)
        else
          let r := startPoll m w e fuel (idx + 1)
          (r.1, r.2.1, { r.2.2 with probes := r.2.2.probes + 1,
                                    sleepSecs := r.2.2.sleepSecs + 5 })

/-- `GrobidManager.start` (paper_parser.py lines 98-187).  First probe the
current service; when healthy, bind a client (raising when that fails —
no restart).  Otherwise clear the ownership flag, remove any stale container
registered under the same name, `docker run` a fresh detached `--rm`
container (raising on failure), sleep the 10s grace delay and enter the
30-attempt polling loop. -/
def start (m : Manager) (w : World) (e : StartEnv) :
    Except StartErr Manager × World × StartTrace :=
  if probeHealthy w e 0 then
    if e.clientInitOk then
      (.ok { m with hasClient := true }, w, ⟨1, 0, 0, 0, 0, 0⟩)
    else
      (.error .clientInitFailedHealthy, w, ⟨1, 0, 0, 0, 0, 0⟩)
  else
    let m1 : Manager := { m with startedByThisInstance := false }
    if !w.dockerFound then
      (.error .dockerNotFound, w, ⟨1, 0, 0, 0, 0, 0⟩)
    else
      -- pre-clean: remove an existing container of the same name; a failed
      -- removal is printed and ignored (CalledProcessError caught, line 121)
      let preRms := if w.containerExists then 1 else 0
      let w1 := if w.containerExists && e.rmExistingOk then applyRm w else w
      if !e.dockerRunOk then
        (.error .dockerRunFailed, w1, ⟨1, 0, 1, 0, 1, preRms⟩)
      else
        let w2 : World := { w1 with containerExists := true,
                                    containerRunning := true,
                                    autoRemove := true }
        let m2 : Manager := { m1 with startedByThisInstance := true }
        let r := startPoll m2 w2 e 30 1
        (r.1, r.2.1, { r.2.2 with probes := r.2.2.probes + 1,
                                  sleepSecs := r.2.2.sleepSecs + 10,
                                  dockerRuns := r.2.2.dockerRuns + 1,
                                  dockerRms := r.2.2.dockerRms + preRms })

end GrobidManager

/-- `os.path.basename`: the characters after the last path separator. -/
def basename (p : String) : String :=
  ⟨p.data.foldl (fun acc c => if c = '/' then [] else acc ++ [c]) []⟩

/-- Drop the final suffix of a file name, CPython `pathlib` style: the suffix
starts at the last dot, provided that dot is neither the first nor the last
character of the name. -/
def dropLastExt (name : List Char) : List Char :=
  match name.reverse.findIdx? (· = '.') with
  | none => name
  | some i =>
      let dotpos := name.length - i - 1
      if 0 < dotpos ∧ dotpos < name.length - 1 then name.take dotpos else name

/-- `pathlib.Path(p).stem`: the base name without its final suffix. -/
def stem (p : String) : String :=
  ⟨dropLastExt (basename p).data⟩

/-- The destination artifact name GROBID writes for an input PDF
(paper_parser.py line 352): `<stem>.grobid.tei.xml`. -/
def expectedArtifact (p : String) : String :=
  stem p ++ ".grobid.tei.xml"

/-- Body of `chunks`, structurally recursive on a fuel bound (one unit of
fuel per produced batch; a batch consumes at least one element, so
`l.length` fuel always suffices). -/
def chunksGo (n : Nat) : Nat → List α → List (List α)
  | _, [] => []
  | 0, _ :: _ => []
  | Nat.succ fuel, x :: xs =>
      (x :: xs).take n :: chunksGo n fuel (xs.drop (n - 1))

/-- `pdf_files_to_process[i : i + batch_size]` slicing, i.e. the consecutive
batches of at most `n` items (paper_parser.py lines 373-374).  For `n = 0`
the Python `range` raises; the model returns no batches. -/
def chunks (n : Nat) (l : List α) : List (List α) :=
  if n = 0 then [] else chunksGo n l.length l

/-- Outcome of one `client.process` call, resolved by the environment:
success, a `requests.exceptions.ConnectionError`, or any other exception. -/
inductive SubmitOutcome where
  | ok
  | connError
  | otherError
deriving DecidableEq, Repr

/-- A file to be staged into a batch's scratch directory: its source path
and (abstracted) content bytes. -/
structure WorkFile where
  path : String
  bytes : Nat
deriving DecidableEq, Repr

/-- Insert or overwrite a binding in the scratch directory: writing a file
whose name already exists replaces its content (shutil.copy2 semantics). -/
def upsert : List (String × Nat) → String → Nat → List (String × Nat)
  | [], k, v => [(k, v)]
  | (k', v') :: t, k, v =>
      if k' = k then (k, v) :: t else (k', v') :: upsert t k v

/-- The staging loop of one batch (paper_parser.py lines 383-391): each work
item whose copy succeeds is written into the scratch directory under its
base filename (overwriting any file already staged under that name), and
appended to `copied_files_for_batch`.  Returns the scratch-directory
contents and the number of entries of `copied_files_for_batch`. -/
def stageBatch (copyOk : String → Bool) (batch : List WorkFile) :
    List (String × Nat) × Nat :=
  batch.foldl
    (fun acc f =>
      if copyOk f.path then (upsert acc.1 (basename f.path) f.bytes, acc.2 + 1)
      else acc)
    ([], 0)

/-- Configuration of a `PaperParser` instance: the `force` flag and
`processing_batch_size`. -/
structure RunCfg where
  force : Bool
  batchSize : Nat
deriving DecidableEq, Repr

/-- Environment of one `PaperParser.run` call: the PDF paths found by the
input glob, the destination store (size of an artifact when it exists,
`none` when it does not), per-item copy success, the outcome of the
submission of each batch (indexed by batch number), and the initial world
and `GrobidManager.start` environment. -/
structure RunEnv where
  pdfs : List String
  outSize : String → Option Nat
  copyOk : String → Bool
  submitAt : Nat → SubmitOutcome
  w0 : World
  startEnv : StartEnv

/-- The exceptions `PaperParser.run` can propagate to its caller. -/
inductive RunErr where
  | startFailed (e : StartErr)  -- GrobidManager.start raised
  | clientMissing               -- defensive check at line 338
  | backendConn (batch : Nat)   -- ConnectionError during batch submission (line 414)
  | submitErr (batch : Nat)     -- any other submission error, re-raised (line 418)
deriving DecidableEq, Repr

/-- Externally visible activity of one `PaperParser.run` call. -/
structure RunTrace where
  startCalled : Bool
  stopCalls : Nat
  fetchLogs : Nat
  skipped : List String      -- items skipped because the artifact exists
  toProcess : List String    -- pdf_files_to_process
  scratchCreated : Nat       -- temporary batch directories created
  scratchReleased : Nat      -- temporary batch directories destroyed
  submissions : Nat          -- client.process calls
  submittedOk : List String  -- items copied into batches whose submission succeeded
deriving DecidableEq, Repr

/-- The number of input items the run accounts for with a per-item outcome:
the items reported skipped plus the items counted successfully submitted.
The code produces no other per-item outcome (in particular, no `Failed`
record of any kind). -/
def reportedCount (tr : RunTrace) : Nat :=
  tr.skipped.length + tr.submittedOk.length

/-- The generic `except Exception` handler of `PaperParser.run` (line 431):
a submission error other than a connectivity failure passes through it and
triggers one more `fetch_container_logs`; every other outcome leaves the
trace unchanged. -/
def noteSubmitFailure (r : Except RunErr Unit) (tr : RunTrace) : RunTrace :=
  match r with
  | .error (.submitErr _) => { tr with fetchLogs := tr.fetchLogs + 1 }
  | _ => tr

namespace PaperParser

/-- The batch loop of `PaperParser.run` (paper_parser.py lines 373-418):
for each batch, create a scratch directory, copy the batch's items into it
(per-item copy failures only exclude the item), skip submission when
nothing was copied, and otherwise submit: on success count the copied items
and continue; on `ConnectionError` raise a `RuntimeError` (fatal, after
fetching container logs); on any other error fetch logs and re-raise.
The scratch directory is destroyed on every exit from the `with` block. -/
def runBatches (env : RunEnv) :
    List (List String) → Nat → RunTrace → Except RunErr Unit × RunTrace
  | [], _, tr => (.ok (), tr)
  | b :: rest, i, tr =>
      let copied := b.filter env.copyOk
      let tr1 := { tr with scratchCreated := tr.scratchCreated + 1,
                           scratchReleased := tr.scratchReleased + 1 }
      if copied.isEmpty then
        runBatches env rest (i + 1) tr1
      else
        match env.submitAt i with
        | .ok =>
            runBatches env rest (i + 1)
              { tr1 with submissions := tr1.submissions + 1,
                         submittedOk := tr1.submittedOk ++ copied }
        | .connError =>
            (.error (.backendConn i),
              { tr1 with submissions := tr1.submissions + 1,
                         fetchLogs := tr1.fetchLogs + 1 })
        | .otherError =>
            (.error (.submitErr i),
              { tr1 with submissions := tr1.submissions + 1,
                         fetchLogs := tr1.fetchLogs + 1 })

/-- `PaperParser.run` (paper_parser.py lines 330-435).  Start the GROBID
manager (any failure propagates, after the `finally` stop); return early
when the input glob is empty; when `force` is false, split the inputs into
the items whose expected destination artifact exists (skipped) and the
rest; return early when nothing is left; otherwise run the batch loop.
A `ConnectionError`-derived `RuntimeError` propagates as is; any other
submission error passes through the generic handler, which fetches the
container logs once more; the `finally` block always calls
`GrobidManager.stop`. -/
def run (cfg : RunCfg) (env : RunEnv) :
    Except RunErr Unit × World × RunTrace :=
  let s := GrobidManager.start Manager.fresh env.w0 env.startEnv
  let w1 := s.2.1
  let base : RunTrace :=
    ⟨true, s.2.2.stopCalls, s.2.2.fetchLogs, [], [], 0, 0, 0, []⟩
  match s.1 with
  | .error e =>
      (.error (.startFailed e),
       (GrobidManager.stop ⟨false, false⟩ w1 env.startEnv.stopOutcome).2.1,
       { base with stopCalls := base.stopCalls + 1 })
  | .ok m1 =>
      if !m1.hasClient then
        (.error .clientMissing,
         (GrobidManager.stop m1 w1 env.startEnv.stopOutcome).2.1,
         { base with stopCalls := base.stopCalls + 1 })
      else if env.pdfs.isEmpty then
        (.ok (),
         (GrobidManager.stop m1 w1 env.startEnv.stopOutcome).2.1,
         { base with stopCalls := base.stopCalls + 1 })
      else
        let skipped :=
          if cfg.force then []
          else env.pdfs.filter fun p => (env.outSize (expectedArtifact p)).isSome
        let toProc :=
          if cfg.force then env.pdfs
          else env.pdfs.filter fun p => !(env.outSize (expectedArtifact p)).isSome
        let base1 := { base with skipped := skipped, toProcess := toProc }
        if toProc.isEmpty then
          (.ok (),
           (GrobidManager.stop m1 w1 env.startEnv.stopOutcome).2.1,
           { base1 with stopCalls := base1.stopCalls + 1 })
        else
          let rb := runBatches env (chunks cfg.batchSize toProc) 0 base1
          let tr1 := noteSubmitFailure rb.1 rb.2
          (rb.1,
           (GrobidManager.stop m1 w1 env.startEnv.stopOutcome).2.1,
           { tr1 with stopCalls := tr1.stopCalls + 1 })

end PaperParser

/-! ### Helper lemmas -/

theorem chunksGo_flatten (n : Nat) (hn : 0 < n) :
    ∀ (fuel : Nat) (l : List α), l.length ≤ fuel →
      (chunksGo n fuel l).flatten = l := by
  intro fuel
  induction fuel with
  | zero =>
      intro l hl
      have : l = [] := List.length_eq_zero.mp (Nat.le_zero.mp hl)
      subst this
      rfl
  | succ f ih =>
      intro l hl
      match l with
      | [] => rfl
      | x :: xs =>
          simp only [chunksGo, List.flatten_cons]
          have hlen : (xs.drop (n - 1)).length ≤ f := by
            simp only [List.length_drop]
            simp only [List.length_cons] at hl
            omega
          rw [ih _ hlen]
          have hdrop : xs.drop (n - 1) = (x :: xs).drop n := by
            obtain ⟨k, rfl⟩ : ∃ k, n = k + 1 := ⟨n - 1, by omega⟩
            simp [List.drop_succ_cons]
          rw [hdrop, List.take_append_drop]

theorem chunks_flatten (n : Nat) (hn : 0 < n) (l : List α) :
    (chunks n l).flatten = l := by
  rw [chunks, if_neg (by omega)]
  exact chunksGo_flatten n hn l.length l le_rfl

theorem chunks_flatten_subset (n : Nat) (l : List α) :
    (chunks n l).flatten ⊆ l := by
  by_cases hn : n = 0
  · rw [chunks, if_pos hn]
    intro p hp
    simp at hp
  · rw [chunks_flatten n (by omega)]
    exact List.Subset.refl l

theorem chunks_nil (n : Nat) : chunks n ([] : List α) = [] := by
  by_cases hn : n = 0
  · rw [chunks, if_pos hn]
  · rw [chunks, if_neg hn]
    rfl

theorem chunksGo_ne_nil (n : Nat) (hn : 0 < n) :
    ∀ (fuel : Nat) (l : List α), ∀ b ∈ chunksGo n fuel l, b ≠ [] := by
  intro fuel
  induction fuel with
  | zero =>
      intro l b hb
      cases l with
      | nil => simp only [chunksGo, List.not_mem_nil] at hb
      | cons x xs => simp only [chunksGo, List.not_mem_nil] at hb
  | succ f ih =>
      intro l b hb
      cases l with
      | nil => simp only [chunksGo, List.not_mem_nil] at hb
      | cons x xs =>
          simp only [chunksGo] at hb
          rcases List.mem_cons.mp hb with h | h
          · subst h
            obtain ⟨k, rfl⟩ : ∃ k, n = k + 1 := ⟨n - 1, by omega⟩
            simp [List.take_cons]
          · exact ih _ _ h

theorem chunks_ne_nil (n : Nat) (l : List α) :
    ∀ b ∈ chunks n l, b ≠ [] := by
  rw [chunks]
  by_cases hn : n = 0
  · rw [if_pos hn]
    intro b hb
    simp at hb
  · rw [if_neg hn]
    exact chunksGo_ne_nil n (by omega) l.length l

theorem startPoll_all_dead (m : Manager) (w : World) (e : StartEnv)
    (hA : e.aliveAt = fun _ => false) :
    ∀ fuel idx, 1 ≤ fuel →
      GrobidManager.startPoll m w e fuel idx =
        (.error .notHealthyInTime,
         (GrobidManager.stop m w e.stopOutcome).2.1,
         ⟨fuel, 5 * (fuel - 1), 1, 1, 0,
          (GrobidManager.stop m w e.stopOutcome).2.2.dockerRmCmds⟩) := by
  intro fuel
  induction fuel with
  | zero => intro idx h; omega
  | succ f ih =>
      intro idx _
      have hph : probeHealthy w e idx = false := by
        simp [probeHealthy, hA]
      rw [GrobidManager.startPoll.eq_def]
      simp only [hph, Bool.false_eq_true, if_false]
      cases f with
      | zero => simp
      | succ f' =>
          simp only [Nat.succ_ne_zero, if_false]
          rw [ih (idx + 1) (by omega)]
          simp [Nat.mul_succ]

theorem start_healthy_ok (m : Manager) (w : World) (e : StartEnv)
    (h0 : probeHealthy w e 0 = true) (hc : e.clientInitOk = true) :
    GrobidManager.start m w e =
      (.ok { m with hasClient := true }, w, ⟨1, 0, 0, 0, 0, 0⟩) := by
  rw [GrobidManager.start]
  simp [h0, hc]

theorem runBatches_allOk (env : RunEnv)
    (hcopy : env.copyOk = fun _ => true) (hsub : env.submitAt = fun _ => .ok) :
    ∀ (bs : List (List String)) (i : Nat) (tr : RunTrace), (∀ b ∈ bs, b ≠ []) →
    PaperParser.runBatches env bs i tr =
      (.ok (), { tr with scratchCreated := tr.scratchCreated + bs.length,
                         scratchReleased := tr.scratchReleased + bs.length,
                         submissions := tr.submissions + bs.length,
                         submittedOk := tr.submittedOk ++ bs.flatten }) := by
  intro bs
  induction bs with
  | nil =>
      intro i tr _
      rw [PaperParser.runBatches]
      simp
  | cons b rest ih =>
      intro i tr hne
      obtain ⟨x, xs, rfl⟩ := List.exists_cons_of_ne_nil (hne b (List.mem_cons_self ..))
      rw [PaperParser.runBatches]
      simp only [hcopy, hsub, List.filter_true, List.isEmpty_cons, ite_false, Bool.false_eq_true]
      rw [ih (i + 1) _ (fun b hb => hne b (List.mem_cons_of_mem _ hb))]
      simp [Prod.mk.injEq, RunTrace.mk.injEq, List.flatten_cons, List.append_assoc,
        Nat.add_assoc, Nat.add_comm, Nat.add_left_comm]

theorem runBatches_firstErr (env : RunEnv) (hcopy : env.copyOk = fun _ => true)
    (k : Nat) (xo : SubmitOutcome) (hxo : xo ≠ .ok)
    (hsub : env.submitAt = fun j => if j < k then .ok else xo) :
    ∀ (bs : List (List String)) (i : Nat) (tr : RunTrace), (∀ b ∈ bs, b ≠ []) →
      i ≤ k → k - i < bs.length →
      (PaperParser.runBatches env bs i tr).1 =
        (match xo with
         | .connError => .error (.backendConn k)
         | _ => .error (.submitErr k)) ∧
      (PaperParser.runBatches env bs i tr).2.scratchCreated
          = tr.scratchCreated + (k - i) + 1 ∧
      (PaperParser.runBatches env bs i tr).2.scratchReleased
          = tr.scratchReleased + (k - i) + 1 ∧
      (PaperParser.runBatches env bs i tr).2.submissions
          = tr.submissions + (k - i) + 1 ∧
      (PaperParser.runBatches env bs i tr).2.submittedOk
          = tr.submittedOk ++ (bs.take (k - i)).flatten := by
  intro bs
  induction bs with
  | nil =>
      intro i tr _ _ hlen
      simp at hlen
  | cons b rest ih =>
      intro i tr hne hik hlen
      obtain ⟨x, xs, rfl⟩ := List.exists_cons_of_ne_nil (hne b (List.mem_cons_self ..))
      rw [PaperParser.runBatches]
      simp only [hcopy, hsub, List.filter_true, List.isEmpty_cons, ite_false, Bool.false_eq_true]
      by_cases hik' : i < k
      · simp only [hik', if_true]
        have h1 : i + 1 ≤ k := hik'
        have h2 : k - (i + 1) < rest.length := by
          simp only [List.length_cons] at hlen
          omega
        obtain ⟨c1, c2, c3, c4, c5⟩ :=
          ih (i + 1) _ (fun b hb => hne b (List.mem_cons_of_mem _ hb)) h1 h2
        refine ⟨c1, ?_, ?_, ?_, ?_⟩
        · rw [c2]; simp only []; omega
        · rw [c3]; simp only []; omega
        · rw [c4]; simp only []; omega
        · rw [c5]
          have hki : k - i = (k - (i + 1)) + 1 := by omega
          rw [hki, List.take_succ_cons, List.flatten_cons, List.append_assoc]
      · have hik0 : k = i := by omega
        subst hik0
        rw [if_neg (Nat.lt_irrefl k)]
        have hki : k - k = 0 := by omega
        match xo, hxo with
        | .connError, _ =>
            refine ⟨rfl, ?_, ?_, ?_, ?_⟩ <;> simp [hki]
        | .otherError, _ =>
            refine ⟨rfl, ?_, ?_, ?_, ?_⟩ <;> simp [hki]

theorem length_filter_split (l : List α) (f g : α → Bool)
    (hfg : ∀ a, g a = !(f a)) :
    (l.filter f).length + (l.filter g).length = l.length := by
  induction l with
  | nil => rfl
  | cons x xs ih =>
      rw [List.filter_cons, List.filter_cons, hfg x]
      cases hx : f x with
      | false =>
          simp only [hx, Bool.not_false, Bool.false_eq_true, if_false, if_true,
            List.length_cons]
          omega
      | true =>
          simp only [hx, Bool.not_true, Bool.false_eq_true, if_false, if_true,
            List.length_cons]
          omega

theorem noteSubmitFailure_fields (r : Except RunErr Unit) (tr : RunTrace) :
    (noteSubmitFailure r tr).skipped = tr.skipped ∧
    (noteSubmitFailure r tr).submittedOk = tr.submittedOk ∧
    (noteSubmitFailure r tr).scratchCreated = tr.scratchCreated ∧
    (noteSubmitFailure r tr).scratchReleased = tr.scratchReleased ∧
    (noteSubmitFailure r tr).submissions = tr.submissions ∧
    (noteSubmitFailure r tr).stopCalls = tr.stopCalls ∧
    (noteSubmitFailure r tr).startCalled = tr.startCalled := by
  cases r with
  | ok u => exact ⟨rfl, rfl, rfl, rfl, rfl, rfl, rfl⟩
  | error e => cases e <;> exact ⟨rfl, rfl, rfl, rfl, rfl, rfl, rfl⟩

theorem runBatches_const_fields (env : RunEnv) :
    ∀ (bs : List (List String)) (i : Nat) (tr : RunTrace),
      (PaperParser.runBatches env bs i tr).2.skipped = tr.skipped ∧
      (PaperParser.runBatches env bs i tr).2.stopCalls = tr.stopCalls ∧
      (PaperParser.runBatches env bs i tr).2.startCalled = tr.startCalled ∧
      (PaperParser.runBatches env bs i tr).2.toProcess = tr.toProcess := by
  intro bs
  induction bs with
  | nil =>
      intro i tr
      exact ⟨rfl, rfl, rfl, rfl⟩
  | cons b rest ih =>
      intro i tr
      rw [PaperParser.runBatches]
      by_cases hce : (b.filter env.copyOk).isEmpty
      · simp only [hce, if_true]
        exact ih _ _
      · simp only [hce, if_false]
        cases hsub : env.submitAt i with
        | ok => exact ih _ _
        | connError => exact ⟨rfl, rfl, rfl, rfl⟩
        | otherError => exact ⟨rfl, rfl, rfl, rfl⟩

theorem runBatches_submittedOk_mem (env : RunEnv) :
    ∀ (bs : List (List String)) (i : Nat) (tr : RunTrace) (p : String),
      p ∈ (PaperParser.runBatches env bs i tr).2.submittedOk →
      p ∈ tr.submittedOk ∨ p ∈ bs.flatten := by
  intro bs
  induction bs with
  | nil =>
      intro i tr p hp
      rw [PaperParser.runBatches] at hp
      exact Or.inl hp
  | cons b rest ih =>
      intro i tr p hp
      rw [PaperParser.runBatches] at hp
      by_cases hce : (b.filter env.copyOk).isEmpty
      · simp only [hce, if_true] at hp
        rcases ih _ _ _ hp with h | h
        · exact Or.inl h
        · refine Or.inr ?_
          rw [List.flatten_cons]
          exact List.mem_append.mpr (Or.inr h)
      · simp only [hce, if_false] at hp
        cases hsub : env.submitAt i with
        | ok =>
            rw [hsub] at hp
            rcases ih _ _ _ hp with h | h
            · rcases List.mem_append.mp h with h' | h'
              · exact Or.inl h'
              · refine Or.inr ?_
                rw [List.flatten_cons]
                exact List.mem_append.mpr (Or.inl (List.mem_of_mem_filter h'))
            · refine Or.inr ?_
              rw [List.flatten_cons]
              exact List.mem_append.mpr (Or.inr h)
        | connError =>
            rw [hsub] at hp
            exact Or.inl hp
        | otherError =>
            rw [hsub] at hp
            exact Or.inl hp

/-- Shared: when the backend starts healthy, every copy succeeds, and the
first `k` batch submissions succeed while submission `k` raises (`xo`),
`run` propagates the corresponding exception, attempts exactly `k + 1`
batches, releases every scratch area it created, counts only the items of
the `k` successful batches, and stops the manager once in `finally`. -/
theorem run_first_submit_error (cfg : RunCfg) (env : RunEnv)
    (k : Nat) (xo : SubmitOutcome)
    (h0 : probeHealthy env.w0 env.startEnv 0 = true)
    (hc : env.startEnv.clientInitOk = true)
    (hforce : cfg.force = true)
    (hcopy : env.copyOk = fun _ => true)
    (hxo : xo ≠ .ok)
    (hsub : env.submitAt = fun j => if j < k then .ok else xo)
    (hk : k < (chunks cfg.batchSize env.pdfs).length) :
    (PaperParser.run cfg env).1 =
      (match xo with
       | .connError => .error (.backendConn k)
       | _ => .error (.submitErr k)) ∧
    (PaperParser.run cfg env).2.2.submissions = k + 1 ∧
    (PaperParser.run cfg env).2.2.scratchCreated = k + 1 ∧
    (PaperParser.run cfg env).2.2.scratchReleased = k + 1 ∧
    (PaperParser.run cfg env).2.2.submittedOk
      = ((chunks cfg.batchSize env.pdfs).take k).flatten ∧
    (PaperParser.run cfg env).2.2.stopCalls = 1 := by
  have hpe' : ¬(env.pdfs.isEmpty = true) := by
    cases hpp : env.pdfs with
    | nil => rw [hpp, chunks_nil] at hk; simp at hk
    | cons a l => simp
  simp only [PaperParser.run, start_healthy_ok _ _ _ h0 hc, Manager.fresh,
    Bool.not_true, Bool.false_eq_true, if_false, ite_false]
  rw [if_neg hpe', if_pos hforce, if_pos hforce, if_neg hpe']
  obtain ⟨c1, c2, c3, c4, c5⟩ := runBatches_firstErr env hcopy k xo hxo hsub
      (chunks cfg.batchSize env.pdfs) 0
      ⟨true, 0, 0, [], env.pdfs, 0, 0, 0, []⟩
      (chunks_ne_nil _ _) (Nat.zero_le k) (by simpa using hk)
  dsimp only
  refine ⟨c1, ?_, ?_, ?_, ?_, ?_⟩
  · rw [(noteSubmitFailure_fields _ _).2.2.2.2.1, c4]
    dsimp only
    omega
  · rw [(noteSubmitFailure_fields _ _).2.2.1, c2]
    dsimp only
    omega
  · rw [(noteSubmitFailure_fields _ _).2.2.2.1, c3]
    dsimp only
    omega
  · rw [(noteSubmitFailure_fields _ _).2.1, c5]
    dsimp only
    rw [List.nil_append, Nat.sub_zero]
  · rw [(noteSubmitFailure_fields _ _).2.2.2.2.2.1,
      (runBatches_const_fields env _ _ _).2.1]

/-! ### Claim theorems -/

/-- C7: `GrobidManager.stop` (the controller's `release`) never raises —
every exception its body can produce is caught by one of its `except`
clauses — it unconditionally drops the client, and it is idempotent:
a second call on the state left by the first changes neither the manager
state nor the docker world. -/
theorem stop_never_raises_and_second_call_noop
    (m : Manager) (w : World) (o : StopOutcome) :
    (GrobidManager.stopE m w o).isOk = true ∧
    (GrobidManager.stop m w o).1.hasClient = false ∧
    (GrobidManager.stop (GrobidManager.stop m w o).1
        (GrobidManager.stop m w o).2.1 o).1 = (GrobidManager.stop m w o).1 ∧
    (GrobidManager.stop (GrobidManager.stop m w o).1
        (GrobidManager.stop m w o).2.1 o).2.1 = (GrobidManager.stop m w o).2.1 := by
  rcases m with ⟨hc, sf⟩
  rcases w with ⟨df, ce, cr, ar⟩
  cases o <;> cases hc <;> cases sf <;> cases df <;> cases ce <;> cases cr <;>
    cases ar <;> decide

/-- C2 counterexample: a submission error other than a connectivity failure
on batch 1 of 2 aborts the run — the exception propagates and the second
batch never starts — instead of marking the batch `Failed` and continuing. -/
theorem run_other_error_aborts_counterexample :
    (PaperParser.run ⟨true, 1⟩
        ⟨["in/a.pdf", "in/b.pdf"], fun _ => none, fun _ => true,
         fun _ => .otherError, ⟨true, true, true, false⟩,
         ⟨fun _ => true, true, true, true, true, .ok⟩⟩).1
      = .error (.submitErr 0) ∧
    (PaperParser.run ⟨true, 1⟩
        ⟨["in/a.pdf", "in/b.pdf"], fun _ => none, fun _ => true,
         fun _ => .otherError, ⟨true, true, true, false⟩,
         ⟨fun _ => true, true, true, true, true, .ok⟩⟩).2.2.submissions = 1 ∧
    (PaperParser.run ⟨true, 1⟩
        ⟨["in/a.pdf", "in/b.pdf"], fun _ => none, fun _ => true,
         fun _ => .otherError, ⟨true, true, true, false⟩,
         ⟨fun _ => true, true, true, true, true, .ok⟩⟩).2.2.scratchCreated = 1 ∧
    (chunks 1 ["in/a.pdf", "in/b.pdf"]).length = 2 :=
  ⟨rfl, rfl, rfl, rfl⟩

/-- C2 amended: a batch submission error other than a connectivity failure
is re-raised (after fetching the container logs): it aborts the whole run,
no item of the failing batch is marked `Failed` — those items are simply
unaccounted — and the remaining batches never start. -/
theorem run_other_error_aborts (cfg : RunCfg) (env : RunEnv) (k : Nat)
    (h0 : probeHealthy env.w0 env.startEnv 0 = true)
    (hc : env.startEnv.clientInitOk = true)
    (hforce : cfg.force = true)
    (hcopy : env.copyOk = fun _ => true)
    (hsub : env.submitAt = fun j => if j < k then .ok else .otherError)
    (hk : k < (chunks cfg.batchSize env.pdfs).length) :
    (PaperParser.run cfg env).1 = .error (.submitErr k) ∧
    (PaperParser.run cfg env).2.2.submissions = k + 1 ∧
    (PaperParser.run cfg env).2.2.scratchCreated = k + 1 ∧
    (PaperParser.run cfg env).2.2.submittedOk
      = ((chunks cfg.batchSize env.pdfs).take k).flatten := by
  have h := run_first_submit_error cfg env k .otherError h0 hc hforce hcopy
    (by decide) hsub hk
  exact ⟨h.1, h.2.1, h.2.2.1, h.2.2.2.2.1⟩

/-- Witness for C2 amended: three one-item batches, the second submission
raising a non-connectivity error. -/
theorem run_other_error_aborts_witness :
    probeHealthy (⟨true, true, true, false⟩ : World)
        (⟨fun _ => true, true, true, true, true, .ok⟩ : StartEnv) 0 = true ∧
    (⟨fun _ => true, true, true, true, true, .ok⟩ : StartEnv).clientInitOk = true ∧
    (⟨true, 1⟩ : RunCfg).force = true ∧
    (⟨["in/a.pdf", "in/b.pdf", "in/c.pdf"], fun _ => none, fun _ => true,
      fun j => if j < 1 then .ok else .otherError,
      ⟨true, true, true, false⟩,
      ⟨fun _ => true, true, true, true, true, .ok⟩⟩ : RunEnv).copyOk
        = (fun _ => true) ∧
    1 < (chunks 1 ["in/a.pdf", "in/b.pdf", "in/c.pdf"]).length ∧
    (PaperParser.run ⟨true, 1⟩
        ⟨["in/a.pdf", "in/b.pdf", "in/c.pdf"], fun _ => none, fun _ => true,
         fun j => if j < 1 then .ok else .otherError,
         ⟨true, true, true, false⟩,
         ⟨fun _ => true, true, true, true, true, .ok⟩⟩).1
      = .error (.submitErr 1) ∧
    (PaperParser.run ⟨true, 1⟩
        ⟨["in/a.pdf", "in/b.pdf", "in/c.pdf"], fun _ => none, fun _ => true,
         fun j => if j < 1 then .ok else .otherError,
         ⟨true, true, true, false⟩,
         ⟨fun _ => true, true, true, true, true, .ok⟩⟩).2.2.submissions = 2 := by
  refine ⟨rfl, rfl, rfl, rfl, by decide, ?_, ?_⟩
  · exact (run_other_error_aborts ⟨true, 1⟩
      ⟨["in/a.pdf", "in/b.pdf", "in/c.pdf"], fun _ => none, fun _ => true,
       fun j => if j < 1 then .ok else .otherError,
       ⟨true, true, true, false⟩,
       ⟨fun _ => true, true, true, true, true, .ok⟩⟩ 1 rfl rfl rfl rfl rfl
       (by decide)).1
  · exact (run_other_error_aborts ⟨true, 1⟩
      ⟨["in/a.pdf", "in/b.pdf", "in/c.pdf"], fun _ => none, fun _ => true,
       fun j => if j < 1 then .ok else .otherError,
       ⟨true, true, true, false⟩,
       ⟨fun _ => true, true, true, true, true, .ok⟩⟩ 1 rfl rfl rfl rfl rfl
       (by decide)).2.1

/-- C9: a connectivity failure during the submission of batch `k` aborts the
whole run — exactly `k + 1` batches are ever started — the `RuntimeError`
modelling `BackendUnavailable` is surfaced to the caller, every scratch area
created (the current batch's included) is released, and the manager is still
stopped once in `finally`. -/
theorem run_conn_error_aborts_releases_scratch (cfg : RunCfg) (env : RunEnv)
    (k : Nat)
    (h0 : probeHealthy env.w0 env.startEnv 0 = true)
    (hc : env.startEnv.clientInitOk = true)
    (hforce : cfg.force = true)
    (hcopy : env.copyOk = fun _ => true)
    (hsub : env.submitAt = fun j => if j < k then .ok else .connError)
    (hk : k < (chunks cfg.batchSize env.pdfs).length) :
    (PaperParser.run cfg env).1 = .error (.backendConn k) ∧
    (PaperParser.run cfg env).2.2.scratchCreated = k + 1 ∧
    (PaperParser.run cfg env).2.2.scratchReleased
      = (PaperParser.run cfg env).2.2.scratchCreated ∧
    (PaperParser.run cfg env).2.2.stopCalls = 1 := by
  have h := run_first_submit_error cfg env k .connError h0 hc hforce hcopy
    (by decide) hsub hk
  exact ⟨h.1, h.2.2.1, h.2.2.2.1.trans h.2.2.1.symm, h.2.2.2.2.2⟩

/-- Witness for C9: two one-item batches, the first submission raising a
connectivity error; the created scratch area is released and the run aborts. -/
theorem run_conn_error_aborts_releases_scratch_witness :
    probeHealthy (⟨true, true, true, false⟩ : World)
        (⟨fun _ => true, true, true, true, true, .ok⟩ : StartEnv) 0 = true ∧
    (⟨fun _ => true, true, true, true, true, .ok⟩ : StartEnv).clientInitOk = true ∧
    (⟨true, 1⟩ : RunCfg).force = true ∧
    0 < (chunks 1 ["in/a.pdf", "in/b.pdf"]).length ∧
    (PaperParser.run ⟨true, 1⟩
        ⟨["in/a.pdf", "in/b.pdf"], fun _ => none, fun _ => true,
         fun j => if j < 0 then .ok else .connError,
         ⟨true, true, true, false⟩,
         ⟨fun _ => true, true, true, true, true, .ok⟩⟩).1
      = .error (.backendConn 0) ∧
    (PaperParser.run ⟨true, 1⟩
        ⟨["in/a.pdf", "in/b.pdf"], fun _ => none, fun _ => true,
         fun j => if j < 0 then .ok else .connError,
         ⟨true, true, true, false⟩,
         ⟨fun _ => true, true, true, true, true, .ok⟩⟩).2.2.scratchReleased
      = (PaperParser.run ⟨true, 1⟩
        ⟨["in/a.pdf", "in/b.pdf"], fun _ => none, fun _ => true,
         fun j => if j < 0 then .ok else .connError,
         ⟨true, true, true, false⟩,
         ⟨fun _ => true, true, true, true, true, .ok⟩⟩).2.2.scratchCreated := by
  refine ⟨rfl, rfl, rfl, by decide, ?_, ?_⟩
  · exact (run_conn_error_aborts_releases_scratch ⟨true, 1⟩
      ⟨["in/a.pdf", "in/b.pdf"], fun _ => none, fun _ => true,
       fun j => if j < 0 then .ok else .connError,
       ⟨true, true, true, false⟩,
       ⟨fun _ => true, true, true, true, true, .ok⟩⟩ 0 rfl rfl rfl rfl rfl
       (by decide)).1
  · exact (run_conn_error_aborts_releases_scratch ⟨true, 1⟩
      ⟨["in/a.pdf", "in/b.pdf"], fun _ => none, fun _ => true,
       fun j => if j < 0 then .ok else .connError,
       ⟨true, true, true, false⟩,
       ⟨fun _ => true, true, true, true, true, .ok⟩⟩ 0 rfl rfl rfl rfl rfl
       (by decide)).2.2.1

/-- C4 counterexample: for a running container that this controller instance
did not start (`_container_started_by_this_instance = false`), `stop` does
not leave the process alone: it still issues `docker stop` and the container
ends up stopped. -/
theorem stop_external_container_stopped_counterexample :
    (⟨true, false⟩ : Manager).startedByThisInstance = false ∧
    (GrobidManager.stop ⟨true, false⟩ ⟨true, true, true, false⟩
        .ok).2.2.dockerStopCmds = 1 ∧
    (GrobidManager.stop ⟨true, false⟩ ⟨true, true, true, false⟩
        .ok).2.1.containerRunning = false := by
  decide

/-- C4 amended: `stop` always attempts `docker stop` on an existing container
regardless of ownership; only the forced `docker rm -f` removal is restricted
to a controller instance that started the container — when the instance did
not start it, no removal command is ever issued. -/
theorem stop_no_removal_when_not_owner (m : Manager) (w : World) (o : StopOutcome)
    (hown : m.startedByThisInstance = false) :
    (GrobidManager.stop m w o).2.2.dockerRmCmds = 0 ∧
    (w.dockerFound = true → w.containerExists = true →
      (GrobidManager.stop m w o).2.2.dockerStopCmds = 1) := by
  rcases m with ⟨hc, sf⟩
  cases sf with
  | false =>
      rcases w with ⟨df, ce, cr, ar⟩
      cases o <;> cases hc <;> cases df <;> cases ce <;> cases cr <;> cases ar <;> decide
  | true => cases hown

/-- Witness for C4 amended at a concrete externally-owned container. -/
theorem stop_no_removal_when_not_owner_witness :
    (⟨true, false⟩ : Manager).startedByThisInstance = false ∧
    ((GrobidManager.stop ⟨true, false⟩ ⟨true, true, true, false⟩
        .ok).2.2.dockerRmCmds = 0 ∧
      ((⟨true, true, true, false⟩ : World).dockerFound = true →
        (⟨true, true, true, false⟩ : World).containerExists = true →
        (GrobidManager.stop ⟨true, false⟩ ⟨true, true, true, false⟩
            .ok).2.2.dockerStopCmds = 1)) :=
  ⟨rfl, stop_no_removal_when_not_owner ⟨true, false⟩ ⟨true, true, true, false⟩ .ok rfl⟩

/-- C5 counterexample: the initial probe reports healthy but binding the
client fails; `start` raises immediately (`clientInitFailedHealthy`) and does
not restart the service — no `docker run`, no removal, no stop. -/
theorem start_bind_failure_no_restart_counterexample :
    (GrobidManager.start Manager.fresh ⟨true, true, true, false⟩
        ⟨fun _ => true, true, false, true, true, .ok⟩).1
      = .error .clientInitFailedHealthy ∧
    (GrobidManager.start Manager.fresh ⟨true, true, true, false⟩
        ⟨fun _ => true, true, false, true, true, .ok⟩).2.2.dockerRuns = 0 ∧
    (GrobidManager.start Manager.fresh ⟨true, true, true, false⟩
        ⟨fun _ => true, true, false, true, true, .ok⟩).2.2.dockerRms = 0 ∧
    (GrobidManager.start Manager.fresh ⟨true, true, true, false⟩
        ⟨fun _ => true, true, false, true, true, .ok⟩).2.2.stopCalls = 0 := by
  exact ⟨rfl, rfl, rfl, rfl⟩

/-- C5 amended: when the initial health probe reports healthy but client
binding fails, `start` fails immediately with a `RuntimeError`
(`clientInitFailedHealthy`): the world is untouched and no restart happens
(no `docker run`, no removal, no stop call). -/
theorem start_bind_failure_raises_without_restart
    (m : Manager) (w : World) (e : StartEnv)
    (h0 : probeHealthy w e 0 = true) (hc : e.clientInitOk = false) :
    (GrobidManager.start m w e).1 = .error .clientInitFailedHealthy ∧
    (GrobidManager.start m w e).2.1 = w ∧
    (GrobidManager.start m w e).2.2.dockerRuns = 0 ∧
    (GrobidManager.start m w e).2.2.dockerRms = 0 ∧
    (GrobidManager.start m w e).2.2.stopCalls = 0 := by
  simp [GrobidManager.start, h0, hc]

/-- Witness for C5 amended at a concrete healthy world with failing client
initialization. -/
theorem start_bind_failure_raises_without_restart_witness :
    probeHealthy ⟨true, true, true, false⟩
        ⟨fun _ => true, true, false, true, true, .ok⟩ 0 = true ∧
    (⟨fun _ => true, true, false, true, true, .ok⟩ : StartEnv).clientInitOk = false ∧
    (GrobidManager.start Manager.fresh ⟨true, true, true, false⟩
        ⟨fun _ => true, true, false, true, true, .ok⟩).1
      = .error .clientInitFailedHealthy := by
  refine ⟨rfl, rfl, ?_⟩
  exact (start_bind_failure_raises_without_restart Manager.fresh
    ⟨true, true, true, false⟩ ⟨fun _ => true, true, false, true, true, .ok⟩ rfl rfl).1

/-- C8: when the GROBID service never answers its liveness probe, `start`
launches the container, sleeps the 10s grace delay, performs its 30 budgeted
probe attempts at a 5s interval (31 probes counting the initial one; 10 +
29·5 = 155 ≈ 160 seconds of waiting), fetches the container logs once,
calls `stop` exactly once — which stops and removes the auto-remove
container — and fails with the `RuntimeError` modelling
`BackendUnavailable`. -/
theorem start_budget_exhausted (m : Manager) (w : World) (e : StartEnv)
    (hA : e.aliveAt = fun _ => false)
    (hd : w.dockerFound = true) (hrun : e.dockerRunOk = true)
    (hstop : e.stopOutcome = .ok) :
    (GrobidManager.start m w e).1 = .error .notHealthyInTime ∧
    (GrobidManager.start m w e).2.2.stopCalls = 1 ∧
    (GrobidManager.start m w e).2.2.fetchLogs = 1 ∧
    (GrobidManager.start m w e).2.2.probes = 31 ∧
    (GrobidManager.start m w e).2.2.sleepSecs = 155 ∧
    (GrobidManager.start m w e).2.1.containerExists = false ∧
    (GrobidManager.start m w e).2.1.containerRunning = false := by
  have h0 : probeHealthy w e 0 = false := by simp [probeHealthy, hA]
  simp only [GrobidManager.start, h0, Bool.false_eq_true, if_false, hd, hrun,
    Bool.not_true]
  rw [startPoll_all_dead _ _ _ hA 30 1 (by omega)]
  by_cases hce : w.containerExists <;> by_cases hrm : e.rmExistingOk <;>
    simp [GrobidManager.stop, stopBody, applyStop, applyRm, hstop, hd, hce, hrm]

/-- Witness for C8 at a concrete fresh world with a service that never
becomes healthy. -/
theorem start_budget_exhausted_witness :
    (⟨fun _ => false, true, true, true, true, .ok⟩ : StartEnv).aliveAt
        = (fun _ => false) ∧
    (⟨true, false, false, false⟩ : World).dockerFound = true ∧
    (⟨fun _ => false, true, true, true, true, .ok⟩ : StartEnv).dockerRunOk = true ∧
    (⟨fun _ => false, true, true, true, true, .ok⟩ : StartEnv).stopOutcome = .ok ∧
    (GrobidManager.start Manager.fresh ⟨true, false, false, false⟩
        ⟨fun _ => false, true, true, true, true, .ok⟩).1
      = .error .notHealthyInTime ∧
    (GrobidManager.start Manager.fresh ⟨true, false, false, false⟩
        ⟨fun _ => false, true, true, true, true, .ok⟩).2.2.stopCalls = 1 := by
  refine ⟨rfl, rfl, rfl, rfl, ?_, ?_⟩
  · exact (start_budget_exhausted Manager.fresh ⟨true, false, false, false⟩
      ⟨fun _ => false, true, true, true, true, .ok⟩ rfl rfl rfl rfl).1
  · exact (start_budget_exhausted Manager.fresh ⟨true, false, false, false⟩
      ⟨fun _ => false, true, true, true, true, .ok⟩ rfl rfl rfl rfl).2.1

/-- C10: items are staged into the scratch directory under their base
filename only: staging two work items whose source paths share a base
filename leaves a single file — fewer files than batch items — holding the
later item's bytes, while both items are counted as copied. -/
theorem stageBatch_duplicate_basename (a b : WorkFile)
    (h : basename a.path = basename b.path) :
    (stageBatch (fun _ => true) [a, b]).1 = [(basename b.path, b.bytes)] ∧
    (stageBatch (fun _ => true) [a, b]).1.length < ([a, b] : List WorkFile).length ∧
    (stageBatch (fun _ => true) [a, b]).2 = 2 := by
  simp [stageBatch, upsert, h]

/-- C1 counterexample: `run` carries no per-item result sequence: on an
aborted run (connectivity failure in batch 1 of 2) it surfaces the error
and accounts for none of the two input items — no `Failed` outcome of any
kind is produced for unattempted items. -/
theorem run_accounting_counterexample :
    (PaperParser.run ⟨true, 1⟩
        ⟨["in/a.pdf", "in/b.pdf"], fun _ => none, fun _ => true,
         fun _ => .connError, ⟨true, true, true, false⟩,
         ⟨fun _ => true, true, true, true, true, .ok⟩⟩).1
      = .error (.backendConn 0) ∧
    reportedCount (PaperParser.run ⟨true, 1⟩
        ⟨["in/a.pdf", "in/b.pdf"], fun _ => none, fun _ => true,
         fun _ => .connError, ⟨true, true, true, false⟩,
         ⟨fun _ => true, true, true, true, true, .ok⟩⟩).2.2 = 0 ∧
    (["in/a.pdf", "in/b.pdf"] : List String).length = 2 :=
  ⟨rfl, rfl, rfl⟩

/-- C1 amended: the run's only per-item accounting is the skipped items plus
the successfully submitted items; when the backend starts healthy and every
copy and every submission succeeds, this accounts for every input item
exactly once.  (On an early abort the items of the failing batch and all
later batches are simply unaccounted — the code produces no `Failed`
outcomes and no result sequence.) -/
theorem run_accounts_all_items_when_all_succeed (cfg : RunCfg) (env : RunEnv)
    (h0 : probeHealthy env.w0 env.startEnv 0 = true)
    (hc : env.startEnv.clientInitOk = true)
    (hcopy : env.copyOk = fun _ => true)
    (hsub : env.submitAt = fun _ => .ok)
    (hbs : 0 < cfg.batchSize) :
    (PaperParser.run cfg env).1 = .ok () ∧
    reportedCount (PaperParser.run cfg env).2.2 = env.pdfs.length := by
  simp only [PaperParser.run, start_healthy_ok _ _ _ h0 hc, Manager.fresh,
    Bool.not_true, Bool.false_eq_true, if_false, ite_false]
  by_cases hpe : env.pdfs.isEmpty = true
  · have hpnil : env.pdfs = [] := List.isEmpty_iff.mp hpe
    rw [if_pos hpe, hpnil]
    exact ⟨rfl, rfl⟩
  · rw [if_neg hpe]
    by_cases hforce : cfg.force = true
    · rw [if_pos hforce, if_pos hforce, if_neg hpe]
      rw [runBatches_allOk env hcopy hsub _ 0 _ (chunks_ne_nil _ _)]
      refine ⟨rfl, ?_⟩
      simp [reportedCount, noteSubmitFailure, chunks_flatten _ hbs]
    · rw [if_neg hforce, if_neg hforce]
      by_cases hte : (env.pdfs.filter
          fun p => !(env.outSize (expectedArtifact p)).isSome).isEmpty = true
      · rw [if_pos hte]
        have hnil : env.pdfs.filter
            (fun p => !(env.outSize (expectedArtifact p)).isSome) = [] :=
          List.isEmpty_iff.mp hte
        refine ⟨rfl, ?_⟩
        have htot := length_filter_split env.pdfs
          (fun p => (env.outSize (expectedArtifact p)).isSome)
          (fun p => !(env.outSize (expectedArtifact p)).isSome)
          (fun a => rfl)
        have hlen2 : (env.pdfs.filter
            fun p => !(env.outSize (expectedArtifact p)).isSome).length = 0 := by
          rw [hnil]
          rfl
        simp only [reportedCount, noteSubmitFailure, List.length_nil]
        omega
      · rw [if_neg hte]
        rw [runBatches_allOk env hcopy hsub _ 0 _ (chunks_ne_nil _ _)]
        refine ⟨rfl, ?_⟩
        simp only [reportedCount, noteSubmitFailure, chunks_flatten _ hbs,
          List.nil_append]
        exact length_filter_split env.pdfs _ _ (fun a => rfl)

/-- Witness for C1 amended: three items, one already present in the
destination store, batch size 2; all three are accounted for. -/
theorem run_accounts_all_items_when_all_succeed_witness :
    probeHealthy (⟨true, true, true, false⟩ : World)
        (⟨fun _ => true, true, true, true, true, .ok⟩ : StartEnv) 0 = true ∧
    (⟨fun _ => true, true, true, true, true, .ok⟩ : StartEnv).clientInitOk = true ∧
    (⟨["in/a.pdf", "in/b.pdf", "in/c.pdf"],
      fun s => if s = "a.grobid.tei.xml" then some 7 else none,
      fun _ => true, fun _ => .ok,
      ⟨true, true, true, false⟩,
      ⟨fun _ => true, true, true, true, true, .ok⟩⟩ : RunEnv).copyOk
        = (fun _ => true) ∧
    (⟨["in/a.pdf", "in/b.pdf", "in/c.pdf"],
      fun s => if s = "a.grobid.tei.xml" then some 7 else none,
      fun _ => true, fun _ => .ok,
      ⟨true, true, true, false⟩,
      ⟨fun _ => true, true, true, true, true, .ok⟩⟩ : RunEnv).submitAt
        = (fun _ => .ok) ∧
    0 < (⟨false, 2⟩ : RunCfg).batchSize ∧
    reportedCount (PaperParser.run ⟨false, 2⟩
        ⟨["in/a.pdf", "in/b.pdf", "in/c.pdf"],
         fun s => if s = "a.grobid.tei.xml" then some 7 else none,
         fun _ => true, fun _ => .ok,
         ⟨true, true, true, false⟩,
         ⟨fun _ => true, true, true, true, true, .ok⟩⟩).2.2 = 3 := by
  refine ⟨rfl, rfl, rfl, rfl, by decide, ?_⟩
  exact (run_accounts_all_items_when_all_succeed ⟨false, 2⟩
    ⟨["in/a.pdf", "in/b.pdf", "in/c.pdf"],
     fun s => if s = "a.grobid.tei.xml" then some 7 else none,
     fun _ => true, fun _ => .ok,
     ⟨true, true, true, false⟩,
     ⟨fun _ => true, true, true, true, true, .ok⟩⟩ rfl rfl rfl rfl
     (by decide)).2

/-- C6 counterexample: with an empty input sequence `run` returns an empty
outcome but does interact with the controller: the service is started
(and probed) and then stopped once in the `finally` block. -/
theorem run_empty_input_counterexample :
    (PaperParser.run ⟨false, 1⟩
        ⟨[], fun _ => none, fun _ => true, fun _ => .ok,
         ⟨true, true, true, false⟩,
         ⟨fun _ => true, true, true, true, true, .ok⟩⟩).1 = .ok () ∧
    (PaperParser.run ⟨false, 1⟩
        ⟨[], fun _ => none, fun _ => true, fun _ => .ok,
         ⟨true, true, true, false⟩,
         ⟨fun _ => true, true, true, true, true, .ok⟩⟩).2.2.startCalled = true ∧
    (PaperParser.run ⟨false, 1⟩
        ⟨[], fun _ => none, fun _ => true, fun _ => .ok,
         ⟨true, true, true, false⟩,
         ⟨fun _ => true, true, true, true, true, .ok⟩⟩).2.2.stopCalls = 1 :=
  ⟨rfl, rfl, rfl⟩

/-- C6 amended: for an empty input sequence `run` returns an empty outcome —
no scratch areas, no submissions, nothing reported — but the controller is
still started (the input check happens after `GrobidManager.start`) and then
stopped once in the `finally` block. -/
theorem run_empty_input_starts_and_stops (cfg : RunCfg) (env : RunEnv)
    (h0 : probeHealthy env.w0 env.startEnv 0 = true)
    (hc : env.startEnv.clientInitOk = true)
    (hp : env.pdfs = []) :
    (PaperParser.run cfg env).1 = .ok () ∧
    (PaperParser.run cfg env).2.2.scratchCreated = 0 ∧
    (PaperParser.run cfg env).2.2.submissions = 0 ∧
    reportedCount (PaperParser.run cfg env).2.2 = 0 ∧
    (PaperParser.run cfg env).2.2.startCalled = true ∧
    (PaperParser.run cfg env).2.2.stopCalls = 1 := by
  simp [PaperParser.run, start_healthy_ok _ _ _ h0 hc, Manager.fresh, hp,
    reportedCount]

/-- Witness for C6 amended at a concrete healthy world and empty input. -/
theorem run_empty_input_starts_and_stops_witness :
    probeHealthy (⟨true, true, true, false⟩ : World)
        (⟨fun _ => true, true, true, true, true, .ok⟩ : StartEnv) 0 = true ∧
    (⟨fun _ => true, true, true, true, true, .ok⟩ : StartEnv).clientInitOk = true ∧
    (⟨[], fun _ => none, fun _ => true, fun _ => .ok,
      ⟨true, true, true, false⟩,
      ⟨fun _ => true, true, true, true, true, .ok⟩⟩ : RunEnv).pdfs = [] ∧
    (PaperParser.run ⟨false, 1⟩
        ⟨[], fun _ => none, fun _ => true, fun _ => .ok,
         ⟨true, true, true, false⟩,
         ⟨fun _ => true, true, true, true, true, .ok⟩⟩).2.2.stopCalls = 1 := by
  refine ⟨rfl, rfl, rfl, ?_⟩
  exact (run_empty_input_starts_and_stops ⟨false, 1⟩
    ⟨[], fun _ => none, fun _ => true, fun _ => .ok,
     ⟨true, true, true, false⟩,
     ⟨fun _ => true, true, true, true, true, .ok⟩⟩ rfl rfl rfl).2.2.2.2.2

/-- C3 counterexample: the expected destination artifact exists but is
empty (size 0); `run` with `force = false` still skips the item — the code
checks existence only, not non-emptiness. -/
theorem run_skip_empty_artifact_counterexample :
    (PaperParser.run ⟨false, 1⟩
        ⟨["in/a.pdf"],
         fun s => if s = "a.grobid.tei.xml" then some 0 else none,
         fun _ => true, fun _ => .ok,
         ⟨true, true, true, false⟩,
         ⟨fun _ => true, true, true, true, true, .ok⟩⟩).2.2.skipped
      = ["in/a.pdf"] ∧
    (PaperParser.run ⟨false, 1⟩
        ⟨["in/a.pdf"],
         fun s => if s = "a.grobid.tei.xml" then some 0 else none,
         fun _ => true, fun _ => .ok,
         ⟨true, true, true, false⟩,
         ⟨fun _ => true, true, true, true, true, .ok⟩⟩).2.2.submissions = 0 ∧
    (fun s => if s = "a.grobid.tei.xml" then some 0 else none)
        (expectedArtifact "in/a.pdf") = some 0 :=
  ⟨rfl, rfl, rfl⟩

/-- C3 amended: with `force = false` an item is skipped exactly when its
expected destination artifact exists in the destination store — regardless
of the artifact's size — and only items whose artifact does not exist are
ever submitted to the backend. -/
theorem run_skips_iff_artifact_exists (cfg : RunCfg) (env : RunEnv)
    (h0 : probeHealthy env.w0 env.startEnv 0 = true)
    (hc : env.startEnv.clientInitOk = true)
    (hf : cfg.force = false) :
    (PaperParser.run cfg env).2.2.skipped
      = env.pdfs.filter (fun p => (env.outSize (expectedArtifact p)).isSome) ∧
    ((PaperParser.run cfg env).2.2.submittedOk.all
        (fun p => !(env.outSize (expectedArtifact p)).isSome)) = true := by
  simp only [PaperParser.run, start_healthy_ok _ _ _ h0 hc, Manager.fresh, hf,
    Bool.not_true, Bool.false_eq_true, if_false, ite_false]
  by_cases hpe : env.pdfs.isEmpty = true
  · have hpnil : env.pdfs = [] := List.isEmpty_iff.mp hpe
    rw [if_pos hpe, hpnil]
    exact ⟨rfl, rfl⟩
  · rw [if_neg hpe]
    by_cases hte : (env.pdfs.filter
        fun p => !(env.outSize (expectedArtifact p)).isSome).isEmpty = true
    · rw [if_pos hte]
      exact ⟨rfl, rfl⟩
    · rw [if_neg hte]
      dsimp only
      constructor
      · rw [(noteSubmitFailure_fields _ _).1, (runBatches_const_fields env _ _ _).1]
      · rw [(noteSubmitFailure_fields _ _).2.1, List.all_eq_true]
        intro p hp
        rcases runBatches_submittedOk_mem env _ _ _ p hp with h | h
        · simp at h
        · have hsub : p ∈ env.pdfs.filter
              fun q => !(env.outSize (expectedArtifact q)).isSome :=
            chunks_flatten_subset _ _ h
          exact (List.mem_filter.mp hsub).2

/-- Witness for C3 amended: two items, one with an existing (non-empty)
artifact, one without. -/
theorem run_skips_iff_artifact_exists_witness :
    probeHealthy (⟨true, true, true, false⟩ : World)
        (⟨fun _ => true, true, true, true, true, .ok⟩ : StartEnv) 0 = true ∧
    (⟨fun _ => true, true, true, true, true, .ok⟩ : StartEnv).clientInitOk = true ∧
    (⟨false, 1⟩ : RunCfg).force = false ∧
    (PaperParser.run ⟨false, 1⟩
        ⟨["in/a.pdf", "in/b.pdf"],
         fun s => if s = "a.grobid.tei.xml" then some 7 else none,
         fun _ => true, fun _ => .ok,
         ⟨true, true, true, false⟩,
         ⟨fun _ => true, true, true, true, true, .ok⟩⟩).2.2.skipped
      = (["in/a.pdf", "in/b.pdf"].filter
          (fun p => ((fun s => if s = "a.grobid.tei.xml" then some 7 else none)
            (expectedArtifact p) : Option Nat).isSome)) := by
  refine ⟨rfl, rfl, rfl, ?_⟩
  exact (run_skips_iff_artifact_exists ⟨false, 1⟩
    ⟨["in/a.pdf", "in/b.pdf"],
     fun s => if s = "a.grobid.tei.xml" then some 7 else none,
     fun _ => true, fun _ => .ok,
     ⟨true, true, true, false⟩,
     ⟨fun _ => true, true, true, true, true, .ok⟩⟩ rfl rfl rfl).1

/-- Witness for C10: two PDFs from different directories with the same base
filename. -/
theorem stageBatch_duplicate_basename_witness :
    basename (WorkFile.path ⟨"x/p.pdf", 1⟩) = basename (WorkFile.path ⟨"y/p.pdf", 2⟩) ∧
    (stageBatch (fun _ => true) [⟨"x/p.pdf", 1⟩, ⟨"y/p.pdf", 2⟩]).1
      = [(basename (WorkFile.path ⟨"y/p.pdf", 2⟩), 2)] := by
  refine ⟨by decide, ?_⟩
  exact (stageBatch_duplicate_basename ⟨"x/p.pdf", 1⟩ ⟨"y/p.pdf", 2⟩ (by decide)).1

end Krawl
